import Mathlib

/-!
Verification development for the contract integrity and lifecycle-validation
engine of the chaincode repository: a shallow embedding in Lean 4 of the Go
source (data model, hash binding, contract validators, signature-completeness
check, and the Create/Void/Expire lifecycle operations), followed by theorems
settling the specification claims against it.

Conventions of the embedding:
- Go `int64` is modelled as `Int` (the embedded code only compares and copies
  these values, so overflow is not observable).
- Go `time.Time` is modelled as `Int` (an instant); `IsZero` becomes `= 0`
  and `Before` becomes `<`.
- Go byte strings are modelled as `String`; `len` becomes `String.length`
  (the values compared are ASCII hashes and identifiers, where the two agree).
- JSON marshalling and request decoding cannot be embedded; operations take
  them as explicit function parameters (`marshal`, `compact`, `parse`), as
  they take the ledger stub (`getState`), the wall clock (`now`) and the
  transaction id (`txid`).  `PutState` writes are collected in a list and
  returned next to the operation result; `json.Marshal` of the ledger asset
  cannot fail on these struct types, so the store holds typed values.
- SHA-256 and standard base64 (Go `crypto/sha256`, `encoding/base64`
  `StdEncoding`) are implemented concretely below and validated against the
  FIPS 180-4 test vectors.
-/

/-! ## SHA-256 over byte lists (arithmetic on `Nat`, reduced mod 2^32) -/

def wrap32 (n : Nat) : Nat := n % 4294967296

def rotr32 (x k : Nat) : Nat :=
  wrap32 ((x >>> k) ||| (x <<< (32 - k)))

def not32 (x : Nat) : Nat := x ^^^ 4294967295

def sha256K : List Nat :=
  [1116352408, 1899447441, 3049323471, 3921009573, 961987163, 1508970993,
   2453635748, 2870763221, 3624381080, 310598401, 607225278, 1426881987,
   1925078388, 2162078206, 2614888103, 3248222580, 3835390401, 4022224774,
   264347078, 604807628, 770255983, 1249150122, 1555081692, 1996064986,
   2554220882, 2821834349, 2952996808, 3210313671, 3336571891, 3584528711,
   113926993, 338241895, 666307205, 773529912, 1294757372, 1396182291,
   1695183700, 1986661051, 2177026350, 2456956037, 2730485921, 2820302411,
   3259730800, 3345764771, 3516065817, 3600352804, 4094571909, 275423344,
   430227734, 506948616, 659060556, 883997877, 958139571, 1322822218,
   1537002063, 1747873779, 1955562222, 2024104815, 2227730452, 2361852424,
   2428436474, 2756734187, 3204031479, 3329325298]

structure Sha256State where
  h0 : Nat
  h1 : Nat
  h2 : Nat
  h3 : Nat
  h4 : Nat
  h5 : Nat
  h6 : Nat
  h7 : Nat
  deriving DecidableEq

def sha256Init : Sha256State :=
  ⟨1779033703, 3144134277, 1013904242, 2773480762,
   1359893119, 2600822924, 528734635, 1541459225⟩

/-- Big-endian serialization of a natural number into `k` bytes. -/
def beBytes : Nat → Nat → List Nat
  | 0, _ => []
  | k + 1, n => (n >>> (8 * k)) % 256 :: beBytes k n

/-- SHA-256 padding: append 0x80, zeros to 56 mod 64, then the 8-byte big-endian bit length. -/
def sha256Pad (msg : List Nat) : List Nat :=
  let zeros := (64 + 56 - (msg.length + 1) % 64) % 64
  msg ++ (128 :: List.replicate zeros 0) ++ beBytes 8 (msg.length * 8)

/-- Group bytes into big-endian 32-bit words. -/
def bytesToWords : List Nat → List Nat
  | b0 :: b1 :: b2 :: b3 :: rest => (((b0 * 256 + b1) * 256 + b2) * 256 + b3) :: bytesToWords rest
  | _ => []

def smallSigma0 (x : Nat) : Nat := rotr32 x 7 ^^^ rotr32 x 18 ^^^ (x >>> 3)
def smallSigma1 (x : Nat) : Nat := rotr32 x 17 ^^^ rotr32 x 19 ^^^ (x >>> 10)
def bigSigma0 (x : Nat) : Nat := rotr32 x 2 ^^^ rotr32 x 13 ^^^ rotr32 x 22
def bigSigma1 (x : Nat) : Nat := rotr32 x 6 ^^^ rotr32 x 11 ^^^ rotr32 x 25

/-- Extend the 16 message words to 64 by `n` steps of the SHA-256 schedule recurrence. -/
def scheduleExtend : Nat → List Nat → List Nat
  | 0, ws => ws
  | n + 1, ws =>
      let len := ws.length
      let w := wrap32 (smallSigma1 (ws.getD (len - 2) 0) + ws.getD (len - 7) 0 +
                       smallSigma0 (ws.getD (len - 15) 0) + ws.getD (len - 16) 0)
      scheduleExtend n (ws ++ [w])

/-- One SHA-256 compression round; `wk` is the pair of schedule word and round constant. -/
def sha256Round (st : Sha256State) (wk : Nat × Nat) : Sha256State :=
  let t1 := wrap32 (st.h7 + bigSigma1 st.h4 + ((st.h4 &&& st.h5) ^^^ (not32 st.h4 &&& st.h6)) +
                    wk.2 + wk.1)
  let t2 := wrap32 (bigSigma0 st.h0 + ((st.h0 &&& st.h1) ^^^ (st.h0 &&& st.h2) ^^^ (st.h1 &&& st.h2)))
  ⟨wrap32 (t1 + t2), st.h0, st.h1, st.h2, wrap32 (st.h3 + t1), st.h4, st.h5, st.h6⟩

/-- Compress one 64-byte block into the running state. -/
def sha256Compress (st : Sha256State) (block : List Nat) : Sha256State :=
  let ws := scheduleExtend 48 (bytesToWords block)
  let r := (ws.zip sha256K).foldl sha256Round st
  ⟨wrap32 (st.h0 + r.h0), wrap32 (st.h1 + r.h1), wrap32 (st.h2 + r.h2), wrap32 (st.h3 + r.h3),
   wrap32 (st.h4 + r.h4), wrap32 (st.h5 + r.h5), wrap32 (st.h6 + r.h6), wrap32 (st.h7 + r.h7)⟩

/-- Split a byte list into 64-byte blocks; fuel-based structural recursion so
that the kernel can reduce applications on concrete inputs. -/
def toBlocks : Nat → List Nat → List (List Nat)
  | 0, _ => []
  | _, [] => []
  | fuel + 1, l => l.take 64 :: toBlocks fuel (l.drop 64)

def sha256StateBytes (st : Sha256State) : List Nat :=
  beBytes 4 st.h0 ++ beBytes 4 st.h1 ++ beBytes 4 st.h2 ++ beBytes 4 st.h3 ++
  beBytes 4 st.h4 ++ beBytes 4 st.h5 ++ beBytes 4 st.h6 ++ beBytes 4 st.h7

/-- SHA-256 of a byte list, as a 32-byte list. -/
def sha256 (msg : List Nat) : List Nat :=
  let padded := sha256Pad msg
  sha256StateBytes ((toBlocks padded.length padded).foldl sha256Compress sha256Init)

/-! ## Standard (padded) base64, as used by Go `base64.StdEncoding.EncodeToString` -/

def b64Alphabet : List Char :=
  ['A','B','C','D','E','F','G','H','I','J','K','L','M','N','O','P','Q','R','S','T','U','V','W','X','Y','Z',
   'a','b','c','d','e','f','g','h','i','j','k','l','m','n','o','p','q','r','s','t','u','v','w','x','y','z',
   '0','1','2','3','4','5','6','7','8','9','+','/']

def b64Char (n : Nat) : Char := b64Alphabet.getD n 'A'

def base64Chars : List Nat → List Char
  | [] => []
  | [b0] => [b64Char (b0 >>> 2), b64Char ((b0 % 4) <<< 4), '=', '=']
  | [b0, b1] => [b64Char (b0 >>> 2), b64Char (((b0 % 4) <<< 4) + (b1 >>> 4)),
                 b64Char ((b1 % 16) <<< 2), '=']
  | b0 :: b1 :: b2 :: rest =>
      b64Char (b0 >>> 2) :: b64Char (((b0 % 4) <<< 4) + (b1 >>> 4)) ::
      b64Char (((b1 % 16) <<< 2) + (b2 >>> 6)) :: b64Char (b2 % 64) :: base64Chars rest

def base64Encode (bs : List Nat) : String := String.mk (base64Chars bs)

/-! ## Data model (`common/contract` package structs; `int64` as `Int`, `time.Time` as `Int`) -/

structure KeyInfo where
  KeyId : String
  KeyType : String
  KeySource : String
  KeyFingerprint : String
  X509Certificate : String
  deriving DecidableEq, Inhabited

structure ContractIdentityClaim where
  IdentityClaimId : Int
  Claim : String
  Value : String
  Verifier : String
  KycLevel : Int
  deriving DecidableEq, Inhabited

structure ContractParticipantPosition where
  OrgId : Int
  OrgLegalName : String
  OrgCommonName : String
  Position : String
  VerLevel : Int
  IsVirtual : Bool
  deriving DecidableEq, Inhabited

structure ContractParticipant where
  UserId : String
  Roles : List String
  FullName : String
  CanVoidContract : Bool
  KycLevel : Int
  IdentityClaims : List ContractIdentityClaim
  Positions : List ContractParticipantPosition
  deriving DecidableEq, Inhabited

structure ContractOption where
  Key : String
  Value : String
  deriving DecidableEq, Inhabited

structure ContractOptions where
  ExpiryDate : Option Int
  EffectiveDate : Option Int
  VoidableByAuthorPriorToInstantiation : Bool
  VoidableByAuthor : Bool
  VoidableByParticipants : Bool
  VoidableByNotary : Bool
  DaysToSign : Int
  MaxDaysToSign : Int
  AllowSignatureExtension : Bool
  IsMinKycLevelForAllRoles : Bool
  MinKycLevelForAllRoles : Int
  Options : List ContractOption
  deriving DecidableEq, Inhabited

structure ContractUserRoleDefinition where
  Role : String
  Min : Int
  Max : Int
  IncludeRoleInCount : String
  MinKycLevel : Int
  deriving DecidableEq, Inhabited

structure ContractDefinitionOptions where
  RequiredOptions : List String
  DisallowedOptions : List String
  FailIfUnspecifiedOptions : Bool
  EvidenceRequiredForConditionalRelease : Bool
  AllowVoidableByAuthor : Bool
  AllowVoidableByAuthorPriorToInstantiation : Bool
  AllowVoidableByNotary : Bool
  AllowServiceProvider : Bool
  AllowNotaryAsBeneficiary : Bool
  AllowVoidableByParticipants : Bool
  AllowMinKycLevelForAllRoles : Bool
  deriving DecidableEq, Inhabited

structure ContractDefinition where
  ContractFamilyId : Int
  ContractType : Int
  ContractTypeVersion : Int
  SchemaVersion : Int
  ContractNameEnglish : String
  Options : ContractDefinitionOptions
  UserRoles : List ContractUserRoleDefinition
  deriving DecidableEq, Inhabited

structure ContentItem where
  ContentId : Int
  ItemRole : String
  PlainHash : String
  PlainSaltBase64 : String
  EncryptedHash : String
  deriving DecidableEq, Inhabited

structure ConstructedContentItem where
  ContentId : Int
  OrigContentIds : List Int
  ItemRole : String
  PlainHash : String
  EncryptedHash : String
  ConstructTypes : String
  deriving DecidableEq, Inhabited

structure NotaryInstructPackage where
  ContractId : Int
  RequestId : String
  NotaryId : String
  SuppliedInstructions : String
  ApprovedInstructions : String
  MessageToNotary : String
  MessageFromNotary : String
  ApprovalPayTransId : Int
  ApprovalState : String
  KeyInfo : KeyInfo
  AdditionalFeeCents : Int
  AddFeeStoredOutside : Bool
  SubmittedDate : Int
  SealedOnDate : Int
  deriving DecidableEq, Inhabited

structure CreatorAcceptancePackage where
  ContractId : Int
  NotarySignatureHash : String
  KeyInfo : KeyInfo
  AcceptedOnDate : Int
  deriving DecidableEq, Inhabited

structure ReleaseInstructionDetail where
  Instructions : String
  IsCustomRelease : Bool
  StandardReleaseTemplateId : Int
  NotaryPackage : Option NotaryInstructPackage
  AcceptancePackage : Option CreatorAcceptancePackage
  NotarySignature : String
  AcceptanceSignature : String
  IsEvidenceRequiredForRelease : Bool
  ConsensusMethod : String
  MinVerifiersForConsensus : Int
  deriving DecidableEq, Inhabited

structure ContractProxyInstructions where
  Instructions : String
  VisibleToAll : Bool
  InstructionsHash : String
  deriving DecidableEq, Inhabited

structure SignatureMethod where
  PackageMethodId : Int
  SignatureType : String
  SignatureProvider : String
  deriving DecidableEq, Inhabited

structure ContractOrganization where
  OrgId : Int
  IsVirtual : Bool
  LegalName : String
  CommonName : String
  OrgType : String
  Signatories : String
  NonSignatories : String
  deriving DecidableEq, Inhabited

structure ContractParticipantVirtualPosition where
  OrgId : Int
  UserId : String
  Position : String
  deriving DecidableEq, Inhabited

structure ContractBlock where
  ContractID : Int
  SchemaVersion : Int
  Language : String
  ContractFamilyId : Int
  ContractTypeId : Int
  ContractTypeVersion : Int
  CreatedWithTierId : Int
  ContractName : String
  DisplayName : String
  Description : String
  Organizations : List ContractOrganization
  VirtualPositions : List ContractParticipantVirtualPosition
  Participants : List ContractParticipant
  ContractOptions : ContractOptions
  ContentItems : List ContentItem
  SignatureMethod : SignatureMethod
  StorageYears : Int
  ProxyInstructions : Option ContractProxyInstructions
  ReleaseInstructions : Option ReleaseInstructionDetail
  ContractPaymentHash : String
  Definition : ContractDefinition
  DefinitionVersion : Int
  SealedOnDate : Int
  deriving DecidableEq, Inhabited

structure ContentSignature where
  ContentId : Int
  deriving DecidableEq, Inhabited

structure ContractSignaturePackage where
  SignatureId : String
  ContractId : Int
  ContractHash : String
  UserId : String
  UserFullName : String
  DateSigned : Int
  IpAddress : String
  SignatureProvider : String
  SignatureType : String
  KeyInfo : KeyInfo
  IsApprover : Bool
  ContentSignatures : List ContentSignature
  deriving DecidableEq, Inhabited

structure SignedContractSignature where
  ContractSignaturePackage : ContractSignaturePackage
  ContractSignaturePackageHash : String
  Signature : String
  deriving DecidableEq, Inhabited

structure ContractSignatures where
  ContractHash : String
  HasApprovers : Bool
  ApproverSealedOnDate : Option Int
  SealedOnDate : Int
  Signatures : List SignedContractSignature
  deriving DecidableEq, Inhabited

structure ImmutableContract where
  Contract : ContractBlock
  ContractHash : String
  ContractSignatures : ContractSignatures
  ContractSignaturesHash : String
  FinalizedContent : Option ConstructedContentItem
  SealedOnDate : Int
  deriving DecidableEq, Inhabited

/-! ## Ledger-resident types and request/response shapes (`service` package) -/

structure Change where
  PackageID : Int
  PackageHash : String
  PackageDate : String
  CallerSdn : String
  Action : String
  NewState : String
  deriving DecidableEq, Inhabited

structure Contract where
  ContractId : Int
  Version : Int
  ContractHash : String
  CreatedAt : String
  UpdatedAt : String
  State : String
  Changes : List Change
  deriving DecidableEq, Inhabited

structure NewAssetReq where
  ImmutableContract : ImmutableContract
  ImmutableContractHash : String
  NotaryOU : String
  deriving DecidableEq, Inhabited

structure VoidAssetReq where
  ImmutableContract : ImmutableContract
  ImmutableContractHash : String
  ContractId : Int
  PackageId : Int
  PackageHash : String
  deriving DecidableEq, Inhabited

structure CreateAssetResponse where
  ContractId : Int
  TxId : String
  deriving DecidableEq, Inhabited

structure VoidResponse where
  TxId : String
  deriving DecidableEq, Inhabited

structure ExpireResponse where
  TxId : String
  deriving DecidableEq, Inhabited

/-! ## Constants (`common/contract` consts and `service` state strings) -/

def SHA256_HASH_BASE64_LENGTH : Nat := 44
def SIGNATURE_RSA2048_BASE64_LENGTH : Nat := 344
def InstructionMinLength : Nat := 60

def Creator : String := "creator"
def Beneficiary : String := "beneficiary"
def Notary : String := "notary"
def Verifier : String := "verifier"
def Signatory : String := "signatory"

def SignPackageMethodId_OriginalContent : Int := 1
def SignPackageMethodId_Constructed : Int := 2
def SignPackageMethodId_Embedded : Int := 3

def ContractStateActive : String := "active"
def ContractStateVoided : String := "voided"
def ContractStateExpired : String := "expired"
def ContractStateReleased : String := "released"

/-! ## Methods of `common/contract/methods.go` -/

/-- `ContractParticipant.IsRole` (part_001:540-554).  The Go loop body is
`for _, r := range c.Roles { return r == role }`: it returns unconditionally
on the first iteration, so only the head of `Roles` is ever compared.  The
embedding preserves that behaviour.  A nil receiver is modelled as `none`. -/
def ContractParticipant.IsRole (c : Option ContractParticipant) (role : String) : Bool :=
  match c with
  | none => false
  | some c =>
    if role = "" then false
    else
      match c.Roles with
      | [] => false
      | r :: _ => r = role

/-- `ContractBlock.GetSignatoryCountFromParticipants` (methods.go:319-332);
a nil receiver is modelled as `none` and yields 0. -/
def ContractBlock.GetSignatoryCountFromParticipants : Option ContractBlock → Nat
  | none => 0
  | some c => c.Participants.countP (fun p => ContractParticipant.IsRole (some p) Signatory)

/-- `ContractBlock.Validate` (methods.go:20-56). -/
def ContractBlock.Validate (cb : ContractBlock) : Except String Unit :=
  if cb.ContractFamilyId ≠ cb.Definition.ContractFamilyId then .error "invalid contract family id"
  else if cb.ContractTypeId ≠ cb.Definition.ContractType then .error "invalid contract type id"
  else if cb.ContractTypeVersion = 0 then .error "invalid contract type version"
  else if cb.StorageYears < 1 ∨ cb.StorageYears > 30 then .error "invalid storage years"
  else
    match cb.ContractOptions.ExpiryDate with
    | none => .ok ()
    | some ed =>
      if ed < cb.SealedOnDate then .error "invalid expiry date"
      else if cb.ContractOptions.DaysToSign < 1 then .error "invalid days to sign"
      else if cb.ContractOptions.AllowSignatureExtension ∧ cb.ContractOptions.MaxDaysToSign < 1 then
        .error "invalid days to sign extension"
      else .ok ()

/-- `SignatureMethod.Validate` (methods.go:58-76). -/
def SignatureMethod.Validate (sm : SignatureMethod) : Except String Unit :=
  if sm.SignatureType = "" then .error "invalid signature type"
  else if sm.SignatureType ≠ "advanced" ∧ sm.SignatureType ≠ "qualified" then
    .error "invalid signature type"
  else if sm.PackageMethodId ≠ 1 ∧ sm.PackageMethodId ≠ 2 ∧ sm.PackageMethodId ≠ 3 then
    .error "invalid package method id"
  else if sm.SignatureProvider ≠ "Subskribo" ∧ sm.SignatureProvider ≠ "Connective" then
    .error "invalid signature provider"
  else .ok ()

/-- `ReleaseInstructionDetail.Validate` (methods.go:82-120). -/
def ReleaseInstructionDetail.Validate (rid : ReleaseInstructionDetail)
    (evidenceRequired : Bool) : Except String Unit :=
  if rid.Instructions.length < InstructionMinLength then .error "invalid instructions"
  else if !rid.IsCustomRelease then
    if rid.StandardReleaseTemplateId < 1 then .error "invalid standard release template id"
    else .ok ()
  else
    match rid.NotaryPackage with
    | some np =>
      if rid.NotarySignature = "" then .error "invalid notary signature"
      else if np.ApprovalState ≠ "none" then
        match rid.AcceptancePackage with
        | none => .error "invalid acceptance package"
        | some _ =>
          if rid.AcceptanceSignature = "" then .error "invalid acceptance signature"
          else .ok ()
      else .ok ()
    | none =>
      if rid.ConsensusMethod = "" then .error "invalid consensus method"
      else if evidenceRequired ∧ !rid.IsEvidenceRequiredForRelease then
        .error "invalid evidence required for release flag"
      else .ok ()

/-- `ContractProxyInstructions.Validate` (methods.go:122-135). -/
def ContractProxyInstructions.Validate (pi : ContractProxyInstructions) : Except String Unit :=
  if pi.VisibleToAll ∧ pi.Instructions = "" then .error "invalid instructions"
  else if pi.InstructionsHash = "" then .error "invalid instructions hash"
  else .ok ()

/-- `ConstructedContentItem.Validate` (methods.go:137-148). -/
def ConstructedContentItem.Validate (cc : ConstructedContentItem) : Except String Unit :=
  if cc.ContentId < 1 then .error "invalid content id"
  else if cc.PlainHash = "" then .error "invalid plain hash"
  else .ok ()

/-- `KeyInfo.Validate` (methods.go:202-219). -/
def KeyInfo.Validate (k : KeyInfo) : Except String Unit :=
  if k.X509Certificate = "" then
    if k.KeyId = "" then .error "invalid key id"
    else if k.KeyType = "" then .error "invalid key type"
    else if k.KeySource = "" then .error "invalid key source"
    else .ok ()
  else .ok ()

/-- `ContractSignaturePackage.Validate` (methods.go:150-200). -/
def ContractSignaturePackage.Validate (sp : ContractSignaturePackage)
    (signatureMethodId : Int) : Except String Unit :=
  if sp.ContractId < 1 then .error "invalid contract id"
  else if sp.ContractHash = "" then .error "invalid contract hash"
  else if sp.UserId = "" then .error "invalid user id"
  else if sp.UserFullName = "" then .error "invalid user full name"
  else if sp.DateSigned = 0 then .error "invalid date signed"
  else if sp.SignatureType = "" then .error "invalid signature type"
  else if signatureMethodId ≠ 3 then
    if sp.SignatureId = "" then .error "invalid signature id"
    else if sp.IpAddress = "" then .error "invalid ip address"
    else if sp.SignatureProvider = "" then .error "invalid signature provider"
    else
      match sp.KeyInfo.Validate with
      | .error e => .error e
      | .ok _ =>
        if sp.ContractHash = "" then .error "invalid contract hash"
        else .ok ()
  else .ok ()

/-- `formatSignedPackageErr` (methods.go:315-317). -/
def formatSignedPackageErr (userId userName msgTail : String) : String :=
  "contract signature package for user id \u0027" ++ userId ++ "\u0027 and name \u0027" ++
    userName ++ "\u0027, has error: " ++ msgTail

/-- The per-package checks executed inside `ValidateSignaturesComplete` when a
signature package matches the participant under scrutiny (methods.go:269-302).
The checks gated on `requireConstructedContent` are commented out in the
source and therefore absent here. -/
def checkMatchedPackage (c : ImmutableContract) (isEmbedded : Bool)
    (sp : SignedContractSignature) : Except String Unit :=
  let pkg := sp.ContractSignaturePackage
  if pkg.UserFullName = "" then
    .error (formatSignedPackageErr pkg.UserId pkg.UserFullName "full name not set")
  else if pkg.DateSigned = 0 then
    .error (formatSignedPackageErr pkg.UserId pkg.UserFullName "signed on data not set")
  else if pkg.ContractHash.length ≠ SHA256_HASH_BASE64_LENGTH then
    .error (formatSignedPackageErr pkg.UserId pkg.UserFullName "package hash no set or incorrect length")
  else if c.ContractSignatures.ContractHash ≠ pkg.ContractHash then
    .error (formatSignedPackageErr pkg.UserId pkg.UserFullName
      "contract hash does not match contract hash in signature package")
  else if pkg.ContractId ≠ c.Contract.ContractID then
    .error (formatSignedPackageErr pkg.UserId pkg.UserFullName
      "contract id does not match contract id in signature package")
  else if !isEmbedded then
    if sp.ContractSignaturePackageHash.length ≠ SHA256_HASH_BASE64_LENGTH then
      .error (formatSignedPackageErr pkg.UserId pkg.UserFullName "package hash not of correct length")
    else if sp.Signature = "" then
      .error (formatSignedPackageErr pkg.UserId pkg.UserFullName "missing signature")
    else if sp.Signature.length ≠ SIGNATURE_RSA2048_BASE64_LENGTH then
      .error (formatSignedPackageErr pkg.UserId pkg.UserFullName "signature is not of correct length ")
    else .ok ()
  else .ok ()

/-- The inner loop of `ValidateSignaturesComplete` over the signature packages
for one signatory participant `p` (methods.go:266-308).  The Go code threads a
single `found` flag that is declared once, is never reset between
participants, and is tested (`if !found`) inside this inner loop after every
package; the embedding reproduces that flag threading exactly. -/
def scanSignatures (c : ImmutableContract) (isEmbedded : Bool) (p : ContractParticipant) :
    Bool → List SignedContractSignature → Except String Bool
  | found, [] => .ok found
  | found, sp :: rest =>
    if sp.ContractSignaturePackage.UserId = p.UserId then
      match checkMatchedPackage c isEmbedded sp with
      | .error e => .error e
      | .ok _ => scanSignatures c isEmbedded p true rest
    else if found then scanSignatures c isEmbedded p found rest
    else
      .error ("contract signatures block does not have a signature package for signatory user id \u0027"
        ++ p.UserId ++ "\u0027")

/-- The outer loop of `ValidateSignaturesComplete` over the participants
(methods.go:263-310), threading the shared `found` flag. -/
def scanParticipants (c : ImmutableContract) (isEmbedded : Bool) :
    Bool → List ContractParticipant → Except String Bool
  | found, [] => .ok found
  | found, p :: rest =>
    if ContractParticipant.IsRole (some p) Signatory then
      match scanSignatures c isEmbedded p found c.ContractSignatures.Signatures with
      | .error e => .error e
      | .ok found2 => scanParticipants c isEmbedded found2 rest
    else scanParticipants c isEmbedded found rest

/-- `ImmutableContract.ValidateSignaturesComplete` (methods.go:221-313); a nil
receiver is modelled as `none`.  The `isEmbedded` and
`requireConstructedContent` branches whose bodies are commented out in the
source contribute nothing and are omitted. -/
def ImmutableContract.ValidateSignaturesComplete : Option ImmutableContract → Except String Unit
  | none => .error "contract container is nil for method: ValidateSignaturesComplete"
  | some c =>
    if c.ContractSignatures.ContractHash.length ≠ SHA256_HASH_BASE64_LENGTH then
      .error "contract signatures block does not have a contract hash set, or is not of correct length"
    else
      let signedPackCount := c.ContractSignatures.Signatures.length
      if signedPackCount = 0 then
        .error "contract signatures block does not have any signature packages set"
      else
        let signatoryCount := ContractBlock.GetSignatoryCountFromParticipants (some c.Contract)
        if signedPackCount ≠ signatoryCount then
          .error "contract signatures block does not have the same number of signature packages as there are signatories"
        else
          let isEmbedded := c.Contract.SignatureMethod.PackageMethodId = SignPackageMethodId_Embedded
          match scanParticipants c isEmbedded false c.Contract.Participants with
          | .error e => .error e
          | .ok _ => .ok ()

/-! ## Hash binder and request plumbing (part_000: `JsonHashS256`, `ParseRequest`) -/

/-- `JsonHashS256` (part_000:23-43).  The nil `interface{}` input is modelled
as `none`; `json.Marshal` and `json.Compact` are parameters producing byte
lists; the digest pipeline (SHA-256 then padded base64) is concrete. -/
def JsonHashS256 {α : Type} (marshal : α → Except String (List Nat))
    (compact : List Nat → Except String (List Nat)) (data : Option α) : Except String String :=
  match data with
  | none => .error "data is nil"
  | some v =>
    match marshal v with
    | .error e => .error e
    | .ok bytesData =>
      match compact bytesData with
      | .error e => .error e
      | .ok bb => .ok (base64Encode (sha256 bb))

/-! ## Ledger-facing service operations

The Fabric stub is modelled by a `getState` function returning the typed
asset stored under a key (or a ledger failure); the `PutState` calls an
operation performs are collected in the first component of its result. -/

/-- `ReadAsset` (read.go:12-28). -/
def ReadAsset (getState : String → Except String (Option Contract)) (id : String) :
    Except String Contract :=
  match getState id with
  | .error e => .error ("failed to read from world state: " ++ e)
  | .ok none => .error ("the asset " ++ id ++ " does not exist")
  | .ok (some a) => .ok a

/-- `AssetExists` (read.go:31-38). -/
def AssetExists (getState : String → Except String (Option Contract)) (id : String) :
    Except String Bool :=
  match getState id with
  | .error e => .error ("failed to read from world state: " ++ e)
  | .ok r => .ok r.isSome

/-- `CreateAsset` (dto.go:96-156).  `parse` stands for `ParseRequest`,
`jsonHash` for `JsonHashS256` applied to the request's `ImmutableContract`,
`now` for `time.Now().Format(time.RFC3339)` and `txid` for `GetTxID`. -/
def CreateAsset (parse : String → Except String NewAssetReq)
    (jsonHash : ImmutableContract → Except String String)
    (getState : String → Except String (Option Contract))
    (now txid data : String) :
    List (String × Contract) × Except String CreateAssetResponse :=
  match parse data with
  | .error e => ([], .error e)
  | .ok cc =>
    match jsonHash cc.ImmutableContract with
    | .error e => ([], .error e)
    | .ok icHash =>
      if icHash ≠ cc.ImmutableContractHash then ([], .error "invalid immutable contract hash")
      else
        match cc.ImmutableContract.Contract.Validate with
        | .error e => ([], .error e)
        | .ok _ =>
          let contract : Contract :=
            { ContractId := cc.ImmutableContract.Contract.ContractID
              Version := cc.ImmutableContract.Contract.SchemaVersion
              ContractHash := cc.ImmutableContractHash
              CreatedAt := now
              UpdatedAt := now
              State := ContractStateActive
              Changes := [] }
          let contractIdStr := toString contract.ContractId
          match AssetExists getState contractIdStr with
          | .error e => ([], .error e)
          | .ok true =>
            ([], .error ("the contract " ++ toString contract.ContractId ++ " already exists"))
          | .ok false => ([(contractIdStr, contract)], .ok ⟨contract.ContractId, txid⟩)

/-- `VoidAsset` (void.go:17-98).  `getMSPID` models `shim.GetMSPID`. -/
def VoidAsset (parse : String → Except String VoidAssetReq)
    (jsonHash : ImmutableContract → Except String String)
    (getMSPID : Except String String)
    (getState : String → Except String (Option Contract))
    (now txid data : String) :
    List (String × Contract) × Except String VoidResponse :=
  match parse data with
  | .error e => ([], .error e)
  | .ok cc =>
    match jsonHash cc.ImmutableContract with
    | .error e => ([], .error e)
    | .ok icHash =>
      if icHash ≠ cc.ImmutableContractHash then ([], .error "invalid immutable contract hash")
      else if cc.ImmutableContract.Contract.SchemaVersion ≠
          cc.ImmutableContract.Contract.Definition.SchemaVersion then
        ([], .error "contract schema version does not match with definition")
      else
        match cc.ImmutableContract.Contract.Validate with
        | .error e => ([], .error e)
        | .ok _ =>
          match getMSPID with
          | .error e => ([], .error ("failed getting peer\u0027s orgID: " ++ e))
          | .ok _ =>
            match ReadAsset getState (toString cc.ContractId) with
            | .error e => ([], .error e)
            | .ok asset =>
              if asset.State = ContractStateVoided then ([], .error "contract already voided")
              else if asset.State = ContractStateExpired then
                ([], .error "contract expired, cannot void")
              else if asset.State = ContractStateReleased then
                ([], .error "contract released, cannot void")
              else
                let asset' := { asset with
                  State := ContractStateVoided
                  UpdatedAt := now
                  Changes := asset.Changes ++
                    [{ PackageID := cc.PackageId
                       PackageHash := cc.PackageHash
                       PackageDate := now
                       CallerSdn := ""
                       Action := "void"
                       NewState := ContractStateVoided }] }
                ([(toString asset'.ContractId, asset')], .ok ⟨txid⟩)

/-- `ExpireAsset` (part_001:16-90).  The Go code reuses `VoidAssetReq` as the
request shape and does not call `GetMSPID`; the stored asset is written back
under the request's contract id. -/
def ExpireAsset (parse : String → Except String VoidAssetReq)
    (jsonHash : ImmutableContract → Except String String)
    (getState : String → Except String (Option Contract))
    (now txid data : String) :
    List (String × Contract) × Except String ExpireResponse :=
  match parse data with
  | .error e => ([], .error e)
  | .ok cc =>
    match jsonHash cc.ImmutableContract with
    | .error e => ([], .error e)
    | .ok icHash =>
      if icHash ≠ cc.ImmutableContractHash then ([], .error "invalid immutable contract hash")
      else if cc.ImmutableContract.Contract.SchemaVersion ≠
          cc.ImmutableContract.Contract.Definition.SchemaVersion then
        ([], .error "contract schema version does not match with definition")
      else
        match cc.ImmutableContract.Contract.Validate with
        | .error e => ([], .error e)
        | .ok _ =>
          match ReadAsset getState (toString cc.ContractId) with
          | .error e => ([], .error e)
          | .ok asset =>
            if asset.State = ContractStateVoided then ([], .error "contract voided, cannot expire")
            else if asset.State = ContractStateExpired then ([], .error "contract already expired")
            else if asset.State = ContractStateReleased then
              ([], .error "contract released, cannot expire")
            else
              let asset' := { asset with
                State := ContractStateExpired
                UpdatedAt := now
                Changes := asset.Changes ++
                  [{ PackageID := cc.PackageId
                     PackageHash := cc.PackageHash
                     PackageDate := now
                     CallerSdn := ""
                     Action := "expire"
                     NewState := ContractStateExpired }] }
              ([(toString cc.ContractId, asset')], .ok ⟨txid⟩)

/-! ## Concrete values used by the counterexamples and witnesses -/

/-- A 44-character string standing for a base64-encoded SHA-256 digest. -/
def hash44 : String := String.mk (List.replicate 44 'A')

/-- A 344-character string standing for a base64-encoded RSA-2048 signature. -/
def sig344 : String := String.mk (List.replicate 344 'B')

/-- A minimal `ContractBlock` that passes `ContractBlock.Validate` and whose
schema version matches its definition. -/
def blockEx : ContractBlock :=
  { (default : ContractBlock) with ContractTypeVersion := 1, StorageYears := 1 }

/-- A `ContractBlock` that still passes `Validate` but whose `SchemaVersion`
(2) differs from `Definition.SchemaVersion` (0). -/
def blockMismatch : ContractBlock := { blockEx with SchemaVersion := 2 }

def icEx : ImmutableContract := { (default : ImmutableContract) with Contract := blockEx }

def icMismatch : ImmutableContract :=
  { (default : ImmutableContract) with Contract := blockMismatch }

def newReqEx : NewAssetReq :=
  { ImmutableContract := icEx, ImmutableContractHash := "h", NotaryOU := "" }

def newReqMismatch : NewAssetReq :=
  { ImmutableContract := icMismatch, ImmutableContractHash := "h", NotaryOU := "" }

def voidReqEx : VoidAssetReq :=
  { ImmutableContract := icEx, ImmutableContractHash := "h",
    ContractId := 7, PackageId := 9, PackageHash := "ph" }

def voidReqMismatch : VoidAssetReq := { voidReqEx with ImmutableContract := icMismatch }

def assetActiveEx : Contract :=
  { ContractId := 7, Version := 0, ContractHash := "h", CreatedAt := "t0", UpdatedAt := "t0",
    State := "active", Changes := [] }

/-- Ledger with the single active asset under key "7". -/
def getStateEx : String → Except String (Option Contract) :=
  fun k => if k = "7" then .ok (some assetActiveEx) else .ok none

/-- Empty ledger. -/
def getStateEmpty : String → Except String (Option Contract) := fun _ => .ok none

/-- Participant whose first role is not `signatory` but whose role set
contains it. -/
def p2bad : ContractParticipant :=
  { (default : ContractParticipant) with UserId := "U1", Roles := ["creator", "signatory"] }

def partA : ContractParticipant :=
  { (default : ContractParticipant) with UserId := "A", Roles := ["signatory"] }

def partC : ContractParticipant :=
  { (default : ContractParticipant) with UserId := "C", Roles := ["signatory"] }

def pkgA : ContractSignaturePackage :=
  { (default : ContractSignaturePackage) with
    ContractHash := hash44, UserId := "A", UserFullName := "Alice", DateSigned := 1 }

def pkgB : ContractSignaturePackage :=
  { (default : ContractSignaturePackage) with
    ContractHash := hash44, UserId := "B", UserFullName := "Bob", DateSigned := 1 }

def spA : SignedContractSignature :=
  { ContractSignaturePackage := pkgA, ContractSignaturePackageHash := "", Signature := "" }

def spB : SignedContractSignature :=
  { ContractSignaturePackage := pkgB, ContractSignaturePackageHash := "", Signature := "" }

/-- A sealed contract with two signatories "A" and "C" and two signature
packages, for users "A" and "B": the signatory "C" has no package.  The
signature method is Embedded (3), every check on the package of "A" passes,
and the package count (2) equals the signatory count (2). -/
def c1bad : ImmutableContract :=
  { (default : ImmutableContract) with
    Contract := { blockEx with
      Participants := [partA, partC]
      SignatureMethod :=
        { PackageMethodId := 3, SignatureType := "advanced", SignatureProvider := "Subskribo" } }
    ContractSignatures := { (default : ContractSignatures) with
      ContractHash := hash44
      Signatures := [spA, spB] } }

/-- A release instruction with standard release, template id 0 and short
instructions. -/
def rid8bad : ReleaseInstructionDetail := default

/-- Sixty characters of instructions. -/
def instructions60 : String := String.mk (List.replicate 60 'x')

def rid8ok : ReleaseInstructionDetail :=
  { (default : ReleaseInstructionDetail) with Instructions := instructions60 }

deriving instance DecidableEq for Except

/-! ## Auxiliary lemmas about the digest pipeline -/

theorem beBytes_length (k n : Nat) : (beBytes k n).length = k := by
  induction k generalizing n with
  | zero => rfl
  | succ k ih => simp [beBytes, ih]

theorem sha256_length (msg : List Nat) : (sha256 msg).length = 32 := by
  simp [sha256, sha256StateBytes, beBytes_length]

theorem base64Chars_length (l : List Nat) :
    (base64Chars l).length = ((l.length + 2) / 3) * 4 := by
  induction l using base64Chars.induct with
  | case1 => rfl
  | case2 b0 => simp [base64Chars]
  | case3 b0 b1 => simp [base64Chars]
  | case4 b0 b1 b2 rest ih => simp [base64Chars, ih]; omega

theorem base64Encode_length (bs : List Nat) :
    (base64Encode bs).length = ((bs.length + 2) / 3) * 4 := by
  simp [base64Encode, String.length, base64Chars_length]

set_option maxRecDepth 100000 in
/-- FIPS 180-4 test vector: SHA-256 of the empty message. -/
theorem sha256_empty_vector :
    base64Encode (sha256 []) = "47DEQpj8HBSa+/TImW+5JCeuQeRkm5NMpJWZG3hSuFU=" := by decide

set_option maxRecDepth 100000 in
/-- FIPS 180-4 test vector: SHA-256 of "abc". -/
theorem sha256_abc_vector :
    base64Encode (sha256 ((String.toList "abc").map Char.toNat)) =
      "ungWv48Bz+pBQUDeXa4iI7ADYaOWF3qctBD/YfIAFa0=" := by decide

/-! ## Claims -/

/-- Claim C2 (code bug).  The claim states that `IsRole` tests membership of
the role in the whole role set regardless of position.  The Go loop returns
on its first iteration, so only the first role is compared: for the
participant with roles `["creator", "signatory"]`, `IsRole "signatory"`
returns `false` although `"signatory"` is in the role set. -/
theorem claim_C2_eval :
    ContractParticipant.IsRole (some p2bad) "signatory" = false ∧
    "signatory" ∈ p2bad.Roles ∧ "signatory" ≠ "" := by
  refine ⟨rfl, by decide, by decide⟩

/-- Claim C10: calling `ValidateSignaturesComplete` on a nil receiver returns
the descriptive error naming the method, and `GetSignatoryCountFromParticipants`
on a nil receiver returns 0. -/
theorem claim_C10 :
    ImmutableContract.ValidateSignaturesComplete none =
      .error "contract container is nil for method: ValidateSignaturesComplete" ∧
    ContractBlock.GetSignatoryCountFromParticipants none = 0 := ⟨rfl, rfl⟩

/-- Claim C1 (code bug).  `c1bad` has exactly two signatories ("A" and "C")
and exactly two signature packages, none of which belongs to "C"; the claim
requires `ValidateSignaturesComplete` to fail naming "C", but because the
`found` flag set while scanning for "A" is never reset, the code accepts the
contract.  The conjuncts exhibit: the signatory count, the package count, the
absence of any package for "C", that "C" is a signatory participant, and the
successful validation result. -/
theorem claim_C1_eval :
    ContractBlock.GetSignatoryCountFromParticipants (some c1bad.Contract) = 2 ∧
    c1bad.ContractSignatures.Signatures.length = 2 ∧
    (c1bad.ContractSignatures.Signatures.all
      (fun sp => sp.ContractSignaturePackage.UserId != "C")) = true ∧
    partC ∈ c1bad.Contract.Participants ∧
    ContractParticipant.IsRole (some partC) Signatory = true ∧
    ImmutableContract.ValidateSignaturesComplete (some c1bad) = .ok () := by
  refine ⟨by decide, by decide, by decide, by decide, by decide, by decide⟩

/-- Claim C8, counterexample.  For a `ReleaseInstructionDetail` with
`IsCustomRelease = false` and `StandardReleaseTemplateId = 0` but empty
`Instructions`, `Validate` returns "invalid instructions" (the length rule
fires first), not "invalid standard release template id" as the claim, read
over every such value, requires. -/
theorem claim_C8_counterexample :
    rid8bad.IsCustomRelease = false ∧
    rid8bad.StandardReleaseTemplateId = 0 ∧
    rid8bad.Validate false = .error "invalid instructions" ∧
    rid8bad.Validate false ≠ .error "invalid standard release template id" := by
  refine ⟨rfl, rfl, by decide, by decide⟩

/-- Claim C8, amended: for every `ReleaseInstructionDetail` whose
`Instructions` passes the length rule (at least 60 characters) and which has
`IsCustomRelease = false` and `StandardReleaseTemplateId = 0`, `Validate`
returns the validation error "invalid standard release template id". -/
theorem claim_C8_amended (rid : ReleaseInstructionDetail) (evidenceRequired : Bool)
    (hlen : InstructionMinLength ≤ rid.Instructions.length)
    (hcustom : rid.IsCustomRelease = false)
    (hid : rid.StandardReleaseTemplateId = 0) :
    rid.Validate evidenceRequired = .error "invalid standard release template id" := by
  unfold ReleaseInstructionDetail.Validate
  rw [if_neg (by omega), hcustom]
  simp [hid]

/-- Witness for `claim_C8_amended` at the concrete release instruction
`rid8ok` (60 characters of instructions, standard release, template id 0). -/
theorem claim_C8_amended_witness :
    rid8ok.Validate false = .error "invalid standard release template id" :=
  claim_C8_amended rid8ok false (by decide) rfl rfl

/-- Holds when an `ok` digest result is a 44-character string. -/
def okLength44 : Except String String → Prop
  | .ok s => s.length = 44
  | .error _ => True

/-- Claim C7: `JsonHashS256` rejects a nil input with an error; on any input
that serializes it returns the padded base64 encoding of the SHA-256 hash of
the compacted serialization; every `ok` result is a 44-character string; and
the digest is deterministic. -/
theorem claim_C7_digest {α : Type} (marshal : α → Except String (List Nat))
    (compact : List Nat → Except String (List Nat)) :
    JsonHashS256 marshal compact (none : Option α) = .error "data is nil" ∧
    (∀ x : α, JsonHashS256 marshal compact (some x) =
      match marshal x with
      | .error e => .error e
      | .ok bs =>
        match compact bs with
        | .error e => .error e
        | .ok cs => .ok (base64Encode (sha256 cs))) ∧
    (∀ x : Option α, okLength44 (JsonHashS256 marshal compact x)) ∧
    (∀ x : Option α, JsonHashS256 marshal compact x = JsonHashS256 marshal compact x) := by
  refine ⟨rfl, fun x => rfl, fun x => ?_, fun x => rfl⟩
  cases x with
  | none => simp [JsonHashS256, okLength44]
  | some v =>
    simp only [JsonHashS256]
    cases hm : marshal v with
    | error e => simp [okLength44]
    | ok bs =>
      cases hc : compact bs with
      | error e => simp [hc, okLength44]
      | ok cs => simp [hc, okLength44, base64Encode_length, sha256_length]

/-- Claim C3: given a `VoidAsset` request that passes the parse, hash,
schema-version and validator checks (and whose MSP lookup succeeds) against a
stored asset, the operation succeeds exactly on state "active" — storing the
asset with state "voided", a refreshed `UpdatedAt` and one appended
`Change{Action := "void", NewState := "voided"}` — and fails from "voided",
"expired" and "released" with the respective messages. -/
theorem claim_C3_void (parse : String → Except String VoidAssetReq)
    (jsonHash : ImmutableContract → Except String String)
    (getMSPID : Except String String)
    (getState : String → Except String (Option Contract))
    (now txid data m : String) (cc : VoidAssetReq) (asset : Contract)
    (hparse : parse data = .ok cc)
    (hhash : jsonHash cc.ImmutableContract = .ok cc.ImmutableContractHash)
    (hschema : cc.ImmutableContract.Contract.SchemaVersion =
      cc.ImmutableContract.Contract.Definition.SchemaVersion)
    (hvalid : cc.ImmutableContract.Contract.Validate = .ok ())
    (hmsp : getMSPID = .ok m)
    (hget : getState (toString cc.ContractId) = .ok (some asset)) :
    (asset.State = "active" →
      VoidAsset parse jsonHash getMSPID getState now txid data =
        ([(toString asset.ContractId,
            { asset with
              State := "voided"
              UpdatedAt := now
              Changes := asset.Changes ++
                [{ PackageID := cc.PackageId, PackageHash := cc.PackageHash, PackageDate := now,
                   CallerSdn := "", Action := "void", NewState := "voided" }] })],
          .ok ⟨txid⟩)) ∧
    (asset.State = "voided" →
      VoidAsset parse jsonHash getMSPID getState now txid data =
        ([], .error "contract already voided")) ∧
    (asset.State = "expired" →
      VoidAsset parse jsonHash getMSPID getState now txid data =
        ([], .error "contract expired, cannot void")) ∧
    (asset.State = "released" →
      VoidAsset parse jsonHash getMSPID getState now txid data =
        ([], .error "contract released, cannot void")) := by
  have hbody : VoidAsset parse jsonHash getMSPID getState now txid data =
      (if asset.State = ContractStateVoided then ([], .error "contract already voided")
       else if asset.State = ContractStateExpired then ([], .error "contract expired, cannot void")
       else if asset.State = ContractStateReleased then
         ([], .error "contract released, cannot void")
       else
         ([(toString asset.ContractId,
            { asset with
              State := ContractStateVoided
              UpdatedAt := now
              Changes := asset.Changes ++
                [{ PackageID := cc.PackageId, PackageHash := cc.PackageHash, PackageDate := now,
                   CallerSdn := "", Action := "void", NewState := ContractStateVoided }] })],
          .ok ⟨txid⟩)) := by
    unfold VoidAsset ReadAsset
    simp only [hparse, hhash, hschema, hvalid, hmsp, hget]
    simp
  refine ⟨fun hs => ?_, fun hs => ?_, fun hs => ?_, fun hs => ?_⟩ <;>
    rw [hbody, hs] <;> simp [ContractStateVoided, ContractStateExpired, ContractStateReleased]

/-- Witness for `claim_C3_void`: a concrete run against the single active
asset stored under key "7"; the active branch of the conclusion applies and
the other branches are vacuous. -/
theorem claim_C3_void_witness :
    (assetActiveEx.State = "active" →
      VoidAsset (fun _ => .ok voidReqEx) (fun _ => .ok "h") (.ok "Org1MSP") getStateEx
          "t1" "tx1" "d" =
        ([("7",
            { assetActiveEx with
              State := "voided"
              UpdatedAt := "t1"
              Changes := assetActiveEx.Changes ++
                [{ PackageID := voidReqEx.PackageId, PackageHash := voidReqEx.PackageHash,
                   PackageDate := "t1", CallerSdn := "", Action := "void",
                   NewState := "voided" }] })],
          .ok ⟨"tx1"⟩)) ∧
    (assetActiveEx.State = "voided" →
      VoidAsset (fun _ => .ok voidReqEx) (fun _ => .ok "h") (.ok "Org1MSP") getStateEx
          "t1" "tx1" "d" = ([], .error "contract already voided")) := by
  have h := claim_C3_void (fun _ => .ok voidReqEx) (fun _ => .ok "h") (.ok "Org1MSP")
    getStateEx "t1" "tx1" "d" "Org1MSP" voidReqEx assetActiveEx rfl rfl rfl (by decide) rfl
    (by decide)
  exact ⟨fun hs => h.1 hs, fun hs => h.2.1 hs⟩

/-- Claim C5, counterexample.  `CreateAsset` performs no schema-version
cross-check (the Go source carries only a todo remark): a request whose
block's `SchemaVersion` (2) differs from its `Definition.SchemaVersion` (0)
but passes every other check succeeds and writes to the ledger, instead of
failing with a schema-version-mismatch error before any write. -/
theorem claim_C5_counterexample :
    newReqMismatch.ImmutableContract.Contract.SchemaVersion ≠
      newReqMismatch.ImmutableContract.Contract.Definition.SchemaVersion ∧
    CreateAsset (fun _ => .ok newReqMismatch) (fun _ => .ok "h") getStateEmpty "t1" "tx1" "d" =
      ([("0", { ContractId := 0, Version := 2, ContractHash := "h", CreatedAt := "t1",
                UpdatedAt := "t1", State := "active", Changes := [] })],
        .ok ⟨0, "tx1"⟩) := by
  refine ⟨by decide, by decide⟩

/-- Claim C5, amended: `VoidAsset` and `ExpireAsset` are gated by the
schema-version cross-check — whenever the submitted block's `SchemaVersion`
differs from its `Definition.SchemaVersion` (and the request parses and
passes the hash binding), they fail with the schema-version-mismatch error
and perform no ledger write — while `CreateAsset` performs no such check. -/
theorem claim_C5_amended :
    (∀ (parse : String → Except String VoidAssetReq)
       (jsonHash : ImmutableContract → Except String String)
       (getMSPID : Except String String)
       (getState : String → Except String (Option Contract))
       (now txid data : String) (cc : VoidAssetReq),
      parse data = .ok cc →
      jsonHash cc.ImmutableContract = .ok cc.ImmutableContractHash →
      cc.ImmutableContract.Contract.SchemaVersion ≠
        cc.ImmutableContract.Contract.Definition.SchemaVersion →
      VoidAsset parse jsonHash getMSPID getState now txid data =
        ([], .error "contract schema version does not match with definition")) ∧
    (∀ (parse : String → Except String VoidAssetReq)
       (jsonHash : ImmutableContract → Except String String)
       (getState : String → Except String (Option Contract))
       (now txid data : String) (cc : VoidAssetReq),
      parse data = .ok cc →
      jsonHash cc.ImmutableContract = .ok cc.ImmutableContractHash →
      cc.ImmutableContract.Contract.SchemaVersion ≠
        cc.ImmutableContract.Contract.Definition.SchemaVersion →
      ExpireAsset parse jsonHash getState now txid data =
        ([], .error "contract schema version does not match with definition")) := by
  constructor
  · intro parse jsonHash getMSPID getState now txid data cc hparse hhash hschema
    unfold VoidAsset
    simp only [hparse, hhash]
    simp [hschema]
  · intro parse jsonHash getState now txid data cc hparse hhash hschema
    unfold ExpireAsset
    simp only [hparse, hhash]
    simp [hschema]

/-- Witness for `claim_C5_amended`: concrete void and expire requests whose
block schema version (2) differs from the definition's (0) are rejected with
the schema-mismatch error and write nothing. -/
theorem claim_C5_amended_witness :
    VoidAsset (fun _ => .ok voidReqMismatch) (fun _ => .ok "h") (.ok "Org1MSP") getStateEx
        "t1" "tx1" "d" =
      ([], .error "contract schema version does not match with definition") ∧
    ExpireAsset (fun _ => .ok voidReqMismatch) (fun _ => .ok "h") getStateEx "t1" "tx1" "d" =
      ([], .error "contract schema version does not match with definition") :=
  ⟨claim_C5_amended.1 _ _ _ _ _ _ _ voidReqMismatch rfl rfl (by decide),
   claim_C5_amended.2 _ _ _ _ _ _ voidReqMismatch rfl rfl (by decide)⟩

/-- Claim C6: a `CreateAsset` request whose digest matches the supplied hash
and whose block validates stores — when the contract id is new — a fresh
`Contract` keyed by the string form of the block's `ContractID`, with state
"active", empty change list, `Version` copied from the block's
`SchemaVersion`, `ContractHash` equal to the supplied hash and
`CreatedAt = UpdatedAt = now`; when an asset with that id exists it fails
with the already-exists error and writes nothing. -/
theorem claim_C6_create (parse : String → Except String NewAssetReq)
    (jsonHash : ImmutableContract → Except String String)
    (getState : String → Except String (Option Contract))
    (now txid data : String) (cc : NewAssetReq)
    (hparse : parse data = .ok cc)
    (hhash : jsonHash cc.ImmutableContract = .ok cc.ImmutableContractHash)
    (hvalid : cc.ImmutableContract.Contract.Validate = .ok ()) :
    (getState (toString cc.ImmutableContract.Contract.ContractID) = .ok none →
      CreateAsset parse jsonHash getState now txid data =
        ([(toString cc.ImmutableContract.Contract.ContractID,
           { ContractId := cc.ImmutableContract.Contract.ContractID
             Version := cc.ImmutableContract.Contract.SchemaVersion
             ContractHash := cc.ImmutableContractHash
             CreatedAt := now
             UpdatedAt := now
             State := "active"
             Changes := [] })],
          .ok ⟨cc.ImmutableContract.Contract.ContractID, txid⟩)) ∧
    (∀ a : Contract,
      getState (toString cc.ImmutableContract.Contract.ContractID) = .ok (some a) →
      CreateAsset parse jsonHash getState now txid data =
        ([], .error ("the contract " ++ toString cc.ImmutableContract.Contract.ContractID ++
          " already exists"))) := by
  constructor
  · intro hget
    unfold CreateAsset AssetExists
    simp only [hparse, hhash, hvalid, hget]
    simp [ContractStateActive]
  · intro a hget
    unfold CreateAsset AssetExists
    simp only [hparse, hhash, hvalid, hget]
    simp

/-- Witness for `claim_C6_create`: a concrete create request against the
empty ledger stores the fresh active asset under key "0", and against the
ledger that maps every key to an asset it fails with the already-exists
error. -/
theorem claim_C6_create_witness :
    CreateAsset (fun _ => .ok newReqEx) (fun _ => .ok "h") getStateEmpty "t1" "tx1" "d" =
      ([("0", { ContractId := 0, Version := 0, ContractHash := "h", CreatedAt := "t1",
                UpdatedAt := "t1", State := "active", Changes := [] })],
        .ok ⟨0, "tx1"⟩) ∧
    CreateAsset (fun _ => .ok newReqEx) (fun _ => .ok "h")
        (fun _ => .ok (some assetActiveEx)) "t1" "tx1" "d" =
      ([], .error "the contract 0 already exists") := by
  refine ⟨(claim_C6_create (fun _ => .ok newReqEx) (fun _ => .ok "h") getStateEmpty
    "t1" "tx1" "d" newReqEx rfl rfl (by decide)).1 rfl, ?_⟩
  have h := (claim_C6_create (fun _ => .ok newReqEx) (fun _ => .ok "h")
    (fun _ => .ok (some assetActiveEx)) "t1" "tx1" "d" newReqEx
    rfl rfl (by decide)).2 assetActiveEx rfl
  simpa using h

/-- If a `VoidAsset` run over a stored asset returns `ok`, the whole result
is the single write of the voided asset (with the appended change) paired
with that response. -/
theorem voidAsset_success_shape (parse : String → Except String VoidAssetReq)
    (jsonHash : ImmutableContract → Except String String)
    (getMSPID : Except String String)
    (getState : String → Except String (Option Contract))
    (now txid data : String) (cc : VoidAssetReq) (asset : Contract) (resp : VoidResponse)
    (hparse : parse data = .ok cc)
    (hget : getState (toString cc.ContractId) = .ok (some asset))
    (hok : (VoidAsset parse jsonHash getMSPID getState now txid data).2 = .ok resp) :
    VoidAsset parse jsonHash getMSPID getState now txid data =
      ([(toString asset.ContractId,
         { asset with
           State := ContractStateVoided
           UpdatedAt := now
           Changes := asset.Changes ++
             [{ PackageID := cc.PackageId, PackageHash := cc.PackageHash, PackageDate := now,
                CallerSdn := "", Action := "void", NewState := ContractStateVoided }] })],
        .ok resp) := by
  unfold VoidAsset ReadAsset at hok ⊢
  simp only [hparse, hget] at hok ⊢
  cases hh : jsonHash cc.ImmutableContract with
  | error e => simp [hh] at hok
  | ok icHash =>
    simp only [hh] at hok ⊢
    by_cases h1 : icHash ≠ cc.ImmutableContractHash
    · rw [if_pos h1] at hok; simp at hok
    · rw [if_neg h1] at hok ⊢
      by_cases h2 : cc.ImmutableContract.Contract.SchemaVersion ≠
          cc.ImmutableContract.Contract.Definition.SchemaVersion
      · rw [if_pos h2] at hok; simp at hok
      · rw [if_neg h2] at hok ⊢
        cases hv : cc.ImmutableContract.Contract.Validate with
        | error e => simp [hv] at hok
        | ok u =>
          simp only [hv] at hok ⊢
          cases hm : getMSPID with
          | error e => simp [hm] at hok
          | ok m =>
            simp only [hm] at hok ⊢
            by_cases hs1 : asset.State = ContractStateVoided
            · rw [if_pos hs1] at hok; simp at hok
            · rw [if_neg hs1] at hok ⊢
              by_cases hs2 : asset.State = ContractStateExpired
              · rw [if_pos hs2] at hok; simp at hok
              · rw [if_neg hs2] at hok ⊢
                by_cases hs3 : asset.State = ContractStateReleased
                · rw [if_pos hs3] at hok; simp at hok
                · rw [if_neg hs3] at hok ⊢
                  simp only at hok
                  cases hok
                  rfl

/-- If an `ExpireAsset` run over a stored asset returns `ok`, the whole
result is the single write of the expired asset (with the appended change)
paired with that response. -/
theorem expireAsset_success_shape (parse : String → Except String VoidAssetReq)
    (jsonHash : ImmutableContract → Except String String)
    (getState : String → Except String (Option Contract))
    (now txid data : String) (cc : VoidAssetReq) (asset : Contract) (resp : ExpireResponse)
    (hparse : parse data = .ok cc)
    (hget : getState (toString cc.ContractId) = .ok (some asset))
    (hok : (ExpireAsset parse jsonHash getState now txid data).2 = .ok resp) :
    ExpireAsset parse jsonHash getState now txid data =
      ([(toString cc.ContractId,
         { asset with
           State := ContractStateExpired
           UpdatedAt := now
           Changes := asset.Changes ++
             [{ PackageID := cc.PackageId, PackageHash := cc.PackageHash, PackageDate := now,
                CallerSdn := "", Action := "expire", NewState := ContractStateExpired }] })],
        .ok resp) := by
  unfold ExpireAsset ReadAsset at hok ⊢
  simp only [hparse, hget] at hok ⊢
  cases hh : jsonHash cc.ImmutableContract with
  | error e => simp [hh] at hok
  | ok icHash =>
    simp only [hh] at hok ⊢
    by_cases h1 : icHash ≠ cc.ImmutableContractHash
    · rw [if_pos h1] at hok; simp at hok
    · rw [if_neg h1] at hok ⊢
      by_cases h2 : cc.ImmutableContract.Contract.SchemaVersion ≠
          cc.ImmutableContract.Contract.Definition.SchemaVersion
      · rw [if_pos h2] at hok; simp at hok
      · rw [if_neg h2] at hok ⊢
        cases hv : cc.ImmutableContract.Contract.Validate with
        | error e => simp [hv] at hok
        | ok u =>
          simp only [hv] at hok ⊢
          by_cases hs1 : asset.State = ContractStateVoided
          · rw [if_pos hs1] at hok; simp at hok
          · rw [if_neg hs1] at hok ⊢
            by_cases hs2 : asset.State = ContractStateExpired
            · rw [if_pos hs2] at hok; simp at hok
            · rw [if_neg hs2] at hok ⊢
              by_cases hs3 : asset.State = ContractStateReleased
              · rw [if_pos hs3] at hok; simp at hok
              · rw [if_neg hs3] at hok ⊢
                simp only at hok
                cases hok
                rfl

/-- Claim C9: every successful `VoidAsset` or `ExpireAsset` run performs a
single write whose contract keeps the stored asset's `ContractId`, `Version`,
`ContractHash` and `CreatedAt` unchanged and whose `Changes` list is the
stored one with exactly one new record appended (so all previous records are
preserved). -/
theorem claim_C9_frame :
    (∀ (parse : String → Except String VoidAssetReq)
       (jsonHash : ImmutableContract → Except String String)
       (getMSPID : Except String String)
       (getState : String → Except String (Option Contract))
       (now txid data : String) (cc : VoidAssetReq) (asset : Contract) (resp : VoidResponse),
      parse data = .ok cc →
      getState (toString cc.ContractId) = .ok (some asset) →
      (VoidAsset parse jsonHash getMSPID getState now txid data).2 = .ok resp →
      ∃ (key : String) (c1 : Contract) (ch : Change),
        (VoidAsset parse jsonHash getMSPID getState now txid data).1 = [(key, c1)] ∧
        c1.ContractId = asset.ContractId ∧ c1.Version = asset.Version ∧
        c1.ContractHash = asset.ContractHash ∧ c1.CreatedAt = asset.CreatedAt ∧
        c1.Changes = asset.Changes ++ [ch]) ∧
    (∀ (parse : String → Except String VoidAssetReq)
       (jsonHash : ImmutableContract → Except String String)
       (getState : String → Except String (Option Contract))
       (now txid data : String) (cc : VoidAssetReq) (asset : Contract) (resp : ExpireResponse),
      parse data = .ok cc →
      getState (toString cc.ContractId) = .ok (some asset) →
      (ExpireAsset parse jsonHash getState now txid data).2 = .ok resp →
      ∃ (key : String) (c1 : Contract) (ch : Change),
        (ExpireAsset parse jsonHash getState now txid data).1 = [(key, c1)] ∧
        c1.ContractId = asset.ContractId ∧ c1.Version = asset.Version ∧
        c1.ContractHash = asset.ContractHash ∧ c1.CreatedAt = asset.CreatedAt ∧
        c1.Changes = asset.Changes ++ [ch]) := by
  constructor
  · intro parse jsonHash getMSPID getState now txid data cc asset resp hparse hget hok
    have h := voidAsset_success_shape parse jsonHash getMSPID getState now txid data cc asset
      resp hparse hget hok
    refine ⟨toString asset.ContractId,
      { asset with
        State := ContractStateVoided
        UpdatedAt := now
        Changes := asset.Changes ++
          [{ PackageID := cc.PackageId, PackageHash := cc.PackageHash, PackageDate := now,
             CallerSdn := "", Action := "void", NewState := ContractStateVoided }] },
      { PackageID := cc.PackageId, PackageHash := cc.PackageHash, PackageDate := now,
        CallerSdn := "", Action := "void", NewState := ContractStateVoided },
      ?_, rfl, rfl, rfl, rfl, rfl⟩
    rw [h]
  · intro parse jsonHash getState now txid data cc asset resp hparse hget hok
    have h := expireAsset_success_shape parse jsonHash getState now txid data cc asset
      resp hparse hget hok
    refine ⟨toString cc.ContractId,
      { asset with
        State := ContractStateExpired
        UpdatedAt := now
        Changes := asset.Changes ++
          [{ PackageID := cc.PackageId, PackageHash := cc.PackageHash, PackageDate := now,
             CallerSdn := "", Action := "expire", NewState := ContractStateExpired }] },
      { PackageID := cc.PackageId, PackageHash := cc.PackageHash, PackageDate := now,
        CallerSdn := "", Action := "expire", NewState := ContractStateExpired },
      ?_, rfl, rfl, rfl, rfl, rfl⟩
    rw [h]

/-- Witness for `claim_C9_frame`: concrete successful void and expire runs
against the active asset stored under key "7". -/
theorem claim_C9_frame_witness :
    (∃ (key : String) (c1 : Contract) (ch : Change),
      (VoidAsset (fun _ => .ok voidReqEx) (fun _ => .ok "h") (.ok "Org1MSP") getStateEx
          "t1" "tx1" "d").1 = [(key, c1)] ∧
      c1.ContractId = assetActiveEx.ContractId ∧ c1.Version = assetActiveEx.Version ∧
      c1.ContractHash = assetActiveEx.ContractHash ∧ c1.CreatedAt = assetActiveEx.CreatedAt ∧
      c1.Changes = assetActiveEx.Changes ++ [ch]) ∧
    (∃ (key : String) (c1 : Contract) (ch : Change),
      (ExpireAsset (fun _ => .ok voidReqEx) (fun _ => .ok "h") getStateEx "t1" "tx1" "d").1 =
        [(key, c1)] ∧
      c1.ContractId = assetActiveEx.ContractId ∧ c1.Version = assetActiveEx.Version ∧
      c1.ContractHash = assetActiveEx.ContractHash ∧ c1.CreatedAt = assetActiveEx.CreatedAt ∧
      c1.Changes = assetActiveEx.Changes ++ [ch]) :=
  ⟨claim_C9_frame.1 (fun _ => .ok voidReqEx) (fun _ => .ok "h") (.ok "Org1MSP") getStateEx
      "t1" "tx1" "d" voidReqEx assetActiveEx ⟨"tx1"⟩ rfl (by decide) (by decide),
   claim_C9_frame.2 (fun _ => .ok voidReqEx) (fun _ => .ok "h") getStateEx
      "t1" "tx1" "d" voidReqEx assetActiveEx ⟨"tx1"⟩ rfl (by decide) (by decide)⟩

/-- A lifecycle result is atomic: either an error with no ledger write, or a
success with exactly one write. -/
def atomicResult {α : Type} (r : List (String × Contract) × Except String α) : Prop :=
  (∃ e, r.2 = .error e ∧ r.1 = []) ∨ (∃ a kv, r.2 = .ok a ∧ r.1 = [kv])

/-- Claim C4: `CreateAsset`, `VoidAsset` and `ExpireAsset` are atomic — when
any check fails they return an error having performed no ledger write, and a
(single) write occurs only on the all-checks-passed success path. -/
theorem claim_C4_atomic :
    (∀ (parse : String → Except String NewAssetReq)
       (jsonHash : ImmutableContract → Except String String)
       (getState : String → Except String (Option Contract))
       (now txid data : String),
      atomicResult (CreateAsset parse jsonHash getState now txid data)) ∧
    (∀ (parse : String → Except String VoidAssetReq)
       (jsonHash : ImmutableContract → Except String String)
       (getMSPID : Except String String)
       (getState : String → Except String (Option Contract))
       (now txid data : String),
      atomicResult (VoidAsset parse jsonHash getMSPID getState now txid data)) ∧
    (∀ (parse : String → Except String VoidAssetReq)
       (jsonHash : ImmutableContract → Except String String)
       (getState : String → Except String (Option Contract))
       (now txid data : String),
      atomicResult (ExpireAsset parse jsonHash getState now txid data)) := by
  refine ⟨fun parse jsonHash getState now txid data => ?_,
    fun parse jsonHash getMSPID getState now txid data => ?_,
    fun parse jsonHash getState now txid data => ?_⟩
  · unfold CreateAsset AssetExists atomicResult
    dsimp only
    repeat' split
    all_goals first
      | exact Or.inl ⟨_, rfl, rfl⟩
      | exact Or.inr ⟨_, _, rfl, rfl⟩
  · unfold VoidAsset ReadAsset atomicResult
    dsimp only
    repeat' split
    all_goals first
      | exact Or.inl ⟨_, rfl, rfl⟩
      | exact Or.inr ⟨_, _, rfl, rfl⟩
  · unfold ExpireAsset ReadAsset atomicResult
    dsimp only
    repeat' split
    all_goals first
      | exact Or.inl ⟨_, rfl, rfl⟩
      | exact Or.inr ⟨_, _, rfl, rfl⟩
